import Mathlib

/-!
The `aafwan-sdg` web component (`src/un-sdg2.js`).

A shallow embedding of the decision logic of the component: `getLabel`, `getImgSrc`
and `render`, together with the parts of the JavaScript platform these three methods
call (`Number`, `Number.isInteger`, `-`, array indexing, `new URL(..).href` and the
attribute interpolation of the `html` template tag).

JavaScript values are modelled as follows.

* A JavaScript Number is a `JSNumber`: `NaN`, an infinity, or a finite binary64 value
  `(-1)^negative * mant * 2^exp` (`roundToDouble` produces one representation per
  value).  All arithmetic is exact arithmetic on naturals and
  integers followed by an explicit round-to-nearest-even step.
* The properties `goal` and `label` are declared with `type: String`; `goal` is a
  string, `label` is a string or `undefined` (it is not set by the constructor).
* `undefined` is the constructor `JSValue.undefined`.
-/

namespace UnSdg

/-! ## JavaScript values -/

/-- A JavaScript Number: `nan`, `infinity negative`, or the finite value
`(-1)^negative * mant * 2^exp`. -/
inductive JSNumber where
  | nan
  | infinity (negative : Bool)
  | finite (negative : Bool) (mant : Nat) (exp : Int)
  deriving DecidableEq

/-- The values that `this.label` holds and that `getLabel()` returns: `undefined` or
a string. -/
inductive JSValue where
  | undefined
  | string (s : String)
  deriving DecidableEq

/-- JavaScript truthiness (`ToBoolean`) of `undefined` and of strings: only a non-empty
string is truthy. -/
def JSValue.truthy : JSValue → Bool
  | .undefined => false
  | .string s => !(s == "")

/-! ## `Number(string)`: the StringToNumber conversion -/

/-- The characters `StrWhiteSpaceChar` of the StringNumericLiteral grammar: WhiteSpace
(TAB, VT, FF, ZWNBSP and the Unicode space separators) and LineTerminator. -/
def isStrWhiteSpaceChar (c : Char) : Bool :=
  let n := c.toNat
  n == 0x09 || n == 0x0A || n == 0x0B || n == 0x0C || n == 0x0D || n == 0x20 ||
  n == 0xA0 || n == 0x1680 || (0x2000 ≤ n && n ≤ 0x200A) || n == 0x2028 ||
  n == 0x2029 || n == 0x202F || n == 0x205F || n == 0x3000 || n == 0xFEFF

/-- Strip leading and trailing `StrWhiteSpaceChar`s. -/
def trimString (cs : List Char) : List Char :=
  ((cs.dropWhile isStrWhiteSpaceChar).reverse.dropWhile isStrWhiteSpaceChar).reverse

/-- The value of a digit character in `0-9`, `a-f`, `A-F`. -/
def digitValue (c : Char) : Option Nat :=
  let n := c.toNat
  if 48 ≤ n ∧ n ≤ 57 then some (n - 48)
  else if 97 ≤ n ∧ n ≤ 102 then some (n - 87)
  else if 65 ≤ n ∧ n ≤ 70 then some (n - 55)
  else none

/-- The mathematical value of a non-empty run of digits of the given radix; `none` when
the run is empty or contains another character. -/
def parseDigits (radix : Nat) (cs : List Char) : Option Nat :=
  if cs.isEmpty then none
  else cs.foldl (fun acc c =>
    match acc, digitValue c with
    | some a, some d => if d < radix then some (a * radix + d) else none
    | _, _ => none) (some 0)

/-- The `SignedInteger` after the exponent indicator. -/
def parseExponent (cs : List Char) : Option Int :=
  match cs with
  | '+' :: ds => (parseDigits 10 ds).map Int.ofNat
  | '-' :: ds => (parseDigits 10 ds).map (fun n => - Int.ofNat n)
  | ds => (parseDigits 10 ds).map Int.ofNat

/-- The production `StrUnsignedDecimalLiteral` without `Infinity`: digits, an optional
fraction and an optional exponent, with at least one digit before the exponent.  The
result `(m, e)` stands for the mathematical value `m * 10^e`. -/
def parseUnsignedDecimal (cs : List Char) : Option (Nat × Int) :=
  let intDigits := cs.takeWhile Char.isDigit
  let r1 := cs.dropWhile Char.isDigit
  let fracDigits := match r1 with
    | '.' :: t => t.takeWhile Char.isDigit
    | _ => []
  let r2 := match r1 with
    | '.' :: t => t.dropWhile Char.isDigit
    | _ => r1
  if intDigits.isEmpty && fracDigits.isEmpty then none
  else
    let exp := match r2 with
      | [] => some (0 : Int)
      | c :: t => if c = 'e' ∨ c = 'E' then parseExponent t else none
    match exp, parseDigits 10 (intDigits ++ fracDigits) with
    | some e, some m => some (m, e - (fracDigits.length : Int))
    | _, _ => none

/-- The number of binary digits of `n` (`fuel = n` always suffices). -/
def bitLength : Nat → Nat → Nat
  | 0, _ => 0
  | fuel + 1, n => if n = 0 then 0 else bitLength fuel (n / 2) + 1

/-- The Number value of the rational `num / den` (with `0 < den`) carrying the given
sign: IEEE 754 binary64 round-to-nearest, ties to even, with gradual underflow and
overflow to infinity. -/
def roundToDouble (negative : Bool) (num den : Nat) : JSNumber :=
  if num = 0 then .finite negative 0 0
  else
    let e0 : Int := (bitLength num num : Int) - (bitLength den den : Int)
    let atLeast : Bool :=
      if 0 ≤ e0 then decide (2 ^ e0.toNat * den ≤ num)
      else decide (den ≤ num * 2 ^ (-e0).toNat)
    -- `e` is the integer with `2^e ≤ num / den < 2^(e+1)`
    let e : Int := if atLeast then e0 else e0 - 1
    -- the unit in the last place is `2^s`
    let s : Int := max e (-1022) - 52
    let n := if 0 ≤ s then num else num * 2 ^ (-s).toNat
    let d := if 0 ≤ s then den * 2 ^ s.toNat else den
    let q := n / d
    let r := n % d
    let m :=
      if 2 * r < d then q
      else if d < 2 * r then q + 1
      else if q % 2 = 0 then q else q + 1
    -- a significand rounded up to `2^53` is written `2^52 * 2`
    let m1 := if m = 2 ^ 53 then 2 ^ 52 else m
    let s1 := if m = 2 ^ 53 then s + 1 else s
    if m1 = 0 then .finite negative 0 0
    -- the largest finite value is `(2^53 - 1) * 2^971`
    else if 971 < s1 then .infinity negative
    else .finite negative m1 s1

/-- The Number value of the natural number `n`; this is the Number that a numeric
literal such as `200` denotes. -/
def JSNumber.ofNat (n : Nat) : JSNumber := roundToDouble false n 1

/-- The Number value of the decimal literal value `m * 10^e`. -/
def roundDecimal (negative : Bool) (m : Nat) (e : Int) : JSNumber :=
  if 0 ≤ e then roundToDouble negative (m * 10 ^ e.toNat) 1
  else roundToDouble negative m (10 ^ (-e).toNat)

/-- The digits of a `NonDecimalIntegerLiteral` (after `0x`, `0o` or `0b`). -/
def parseRadix (radix : Nat) (ds : List Char) : JSNumber :=
  match parseDigits radix ds with
  | some n => roundToDouble false n 1
  | none => .nan

/-- The production `StrUnsignedDecimalLiteral` under a sign already consumed. -/
def parseDecimal (negative : Bool) (cs : List Char) : JSNumber :=
  if cs = "Infinity".data then .infinity negative
  else match parseUnsignedDecimal cs with
    | some (m, e) => roundDecimal negative m e
    | none => .nan

/-- The call `Number(s)` on a string: the white space is trimmed, the empty string is
`+0`, a `StrNumericLiteral` is rounded to the nearest binary64 value, anything else is
`NaN`.  (Literals with more than 20 significant digits are rounded exactly, as the
engines do.) -/
def Number (s : String) : JSNumber :=
  match trimString s.data with
  | [] => .finite false 0 0
  | '0' :: 'x' :: ds => parseRadix 16 ds
  | '0' :: 'X' :: ds => parseRadix 16 ds
  | '0' :: 'o' :: ds => parseRadix 8 ds
  | '0' :: 'O' :: ds => parseRadix 8 ds
  | '0' :: 'b' :: ds => parseRadix 2 ds
  | '0' :: 'B' :: ds => parseRadix 2 ds
  | '+' :: cs => parseDecimal false cs
  | '-' :: cs => parseDecimal true cs
  | cs => parseDecimal false cs

/-- The integer that a Number is equal to, when it is finite and integral
(`-0` counts as `0`). -/
def JSNumber.toInt? : JSNumber → Option Int
  | .finite negative m e =>
    if 0 ≤ e then some ((if negative then -1 else 1) * ((m * 2 ^ e.toNat : Nat) : Int))
    else if m % 2 ^ (-e).toNat = 0 then
      some ((if negative then -1 else 1) * ((m / 2 ^ (-e).toNat : Nat) : Int))
    else none
  | _ => none

/-- The call `Number.isInteger(x)`. -/
def Number.isInteger (x : JSNumber) : Bool := x.toInt?.isSome

/-- The expression `x - 1` on Numbers: the exact difference, rounded. -/
def JSNumber.subOne : JSNumber → JSNumber
  | .nan => .nan
  | .infinity negative => .infinity negative
  | .finite negative m e =>
    let num := if 0 ≤ e then m * 2 ^ e.toNat else m
    let den := if 0 ≤ e then 1 else 2 ^ (-e).toNat
    if negative then roundToDouble true (num + den) den
    else if den ≤ num then roundToDouble false (num - den) den
    else roundToDouble true (den - num) den

/-- The expression `xs[k]` for an array of strings and a Number `k`: the element when `k`
is an integer index inside the array, and `undefined` for every other key. -/
def arrayGet (xs : List String) (k : JSNumber) : JSValue :=
  match k.toInt? with
  | some i =>
    if 0 ≤ i then
      match xs.get? i.toNat with
      | some s => .string s
      | none => .undefined
    else .undefined
  | none => .undefined

/-! ## `new URL(relative, import.meta.url).href` -/

/-- The module URL `import.meta.url`, an `http(s)` URL: the serialised scheme and
authority (such as `https://example.org`) and the path segments, the last of which is
the file name of the module. -/
structure BaseURL where
  origin : String
  path : List String

/-- The C0 control percent-encode set. -/
def inC0ControlSet (c : Char) : Bool := c.toNat ≤ 0x1F || 0x7E < c.toNat

/-- The fragment percent-encode set: C0 control set, space, quotation mark, `<`, `>`
and the grave accent. -/
def inFragmentSet (c : Char) : Bool :=
  inC0ControlSet c || c.toNat == 0x20 || c.toNat == 0x22 || c.toNat == 0x3C ||
  c.toNat == 0x3E || c.toNat == 0x60

/-- The query percent-encode set: C0 control set, space, quotation mark, `#`, `<`
and `>`. -/
def inQuerySet (c : Char) : Bool :=
  inC0ControlSet c || c.toNat == 0x20 || c.toNat == 0x22 || c.toNat == 0x23 ||
  c.toNat == 0x3C || c.toNat == 0x3E

/-- The special-query percent-encode set: the query set and the apostrophe. -/
def inSpecialQuerySet (c : Char) : Bool := inQuerySet c || c.toNat == 0x27

/-- The path percent-encode set: the query set and `?`, `^`, the grave accent and the
two curly brackets. -/
def inPathSet (c : Char) : Bool :=
  inQuerySet c || c.toNat == 0x3F || c.toNat == 0x5E || c.toNat == 0x60 ||
  c.toNat == 0x7B || c.toNat == 0x7D

/-- The UTF-8 encoding of a code point. -/
def utf8Bytes (c : Char) : List Nat :=
  let n := c.toNat
  if n < 0x80 then [n]
  else if n < 0x800 then [0xC0 + n / 64, 0x80 + n % 64]
  else if n < 0x10000 then [0xE0 + n / 4096, 0x80 + n / 64 % 64, 0x80 + n % 64]
  else [0xF0 + n / 262144, 0x80 + n / 4096 % 64, 0x80 + n / 64 % 64, 0x80 + n % 64]

/-- An upper-case hexadecimal digit. -/
def hexDigit (d : Nat) : Char := if d < 10 then Char.ofNat (48 + d) else Char.ofNat (55 + d)

/-- Percent-encode one byte. -/
def percentEncodeByte (b : Nat) : List Char := ['%', hexDigit (b / 16), hexDigit (b % 16)]

/-- UTF-8 percent-encode a code point using a percent-encode set. -/
def utf8PercentEncode (set : Char → Bool) (c : Char) : List Char :=
  if set c then (utf8Bytes c).flatMap percentEncodeByte else [c]

/-- A single-dot URL path segment. -/
def isSingleDot (buffer : List Char) : Bool :=
  let b := buffer.map Char.toLower
  b == ".".data || b == "%2e".data

/-- A double-dot URL path segment. -/
def isDoubleDot (buffer : List Char) : Bool :=
  let b := buffer.map Char.toLower
  b == "..".data || b == ".%2e".data || b == "%2e.".data || b == "%2e%2e".data

/-- What the path state does with the segment in `buffer` when it reaches a delimiter;
`slash` tells whether the delimiter is a slash or a backslash. -/
def commitSegment (path : List (List Char)) (buffer : List Char) (slash : Bool) :
    List (List Char) :=
  if isDoubleDot buffer then
    if slash then path.dropLast else path.dropLast ++ [[]]
  else if isSingleDot buffer then
    if slash then path else path ++ [[]]
  else path ++ [buffer]

/-- The fragment state of the URL parser. -/
def fragmentState (input : List Char) : List Char :=
  input.flatMap (utf8PercentEncode inFragmentSet)

/-- The query state of the URL parser (for a special scheme): the query and the
fragment, if any. -/
def queryState (buffer : List Char) : List Char → List Char × Option (List Char)
  | [] => (buffer, none)
  | c :: rest =>
    if c = '#' then (buffer, some (fragmentState rest))
    else queryState (buffer ++ utf8PercentEncode inSpecialQuerySet c) rest

/-- A parsed URL below its authority: path segments, query and fragment. -/
structure URLRecord where
  path : List (List Char)
  query : Option (List Char)
  fragment : Option (List Char)

/-- The path state of the URL parser (for a special scheme). -/
def pathState (path : List (List Char)) (buffer : List Char) : List Char → URLRecord
  | [] => ⟨commitSegment path buffer false, none, none⟩
  | c :: rest =>
    if c = '/' ∨ c.toNat = 0x5C then pathState (commitSegment path buffer true) [] rest
    else if c = '?' then
      ⟨commitSegment path buffer false, some (queryState [] rest).1, (queryState [] rest).2⟩
    else if c = '#' then ⟨commitSegment path buffer false, none, some (fragmentState rest)⟩
    else pathState path (buffer ++ utf8PercentEncode inPathSet c) rest

/-- The input of the URL parser after its preprocessing: leading and trailing C0 controls
and spaces are stripped, then every ASCII tab and newline is removed. -/
def preprocessURL (input : List Char) : List Char :=
  let strip := fun (c : Char) => decide (c.toNat ≤ 0x20)
  let stripped := ((input.dropWhile strip).reverse.dropWhile strip).reverse
  stripped.filter (fun c => !(c.toNat == 0x09 || c.toNat == 0x0A || c.toNat == 0x0D))

/-- The URL serializer below the authority. -/
def serializeURL (origin : List Char) (u : URLRecord) : List Char :=
  origin ++ (u.path.flatMap (fun seg => '/' :: seg))
    ++ (match u.query with
        | some q => '?' :: q
        | none => [])
    ++ (match u.fragment with
        | some f => '#' :: f
        | none => [])

/-- The expression `new URL(input, import.meta.url).href` for an input that is a
path-relative reference (no scheme, no leading slash, `?` or `#`), which is what every
`../lib/svg/...` input is: the parser copies the base path without its last segment and
runs the path state over the input. -/
def URL.href (base : BaseURL) (input : String) : String :=
  String.mk (serializeURL base.origin.data
    (pathState ((base.path.map String.data).dropLast) [] (preprocessURL input.data)))

/-! ## The `html` template tag -/

/-- The text that the template commits for an interpolated value inside an attribute:
`undefined` contributes the empty string. -/
def attrText : JSValue → String
  | .undefined => ""
  | .string s => s

/-- The result of the template expression of `render()`: which of the two templates was
chosen, with the values bound to its holes in source order. -/
inductive TemplateResult where
  /-- The template `<div class="color wrapper" ...>`: the holes are `this.width`,
  `this.goal` and `this.getLabel()`. -/
  | colorWrapper (width : JSNumber) (goal : String) (label : JSValue)
  /-- The template `<div class="svg wrapper" ...><img .../></div>`: the holes are
  `this.width`, `this.goal`, `this.getImgSrc()`, `this.getLabel()` and `this.width`. -/
  | svgWrapper (width : JSNumber) (goal : String) (src : String) (alt : JSValue)
      (imgWidth : JSNumber)
  deriving DecidableEq

namespace TemplateResult

/-- Whether the template contains the `<img>` element. -/
def hasImage : TemplateResult → Bool
  | colorWrapper _ _ _ => false
  | svgWrapper _ _ _ _ _ => true

/-- Whether the template is the colour block (`class="color wrapper"`). -/
def isColorBlock : TemplateResult → Bool
  | colorWrapper _ _ _ => true
  | svgWrapper _ _ _ _ _ => false

/-- The Number interpolated in `--width: ${this.width}px` of the wrapper. -/
def styleWidth : TemplateResult → JSNumber
  | colorWrapper w _ _ => w
  | svgWrapper w _ _ _ _ => w

/-- The value of `--goal-color` in the `style` attribute of the wrapper:
`var(--un-sdg-color-${this.goal})`. -/
def goalColor : TemplateResult → String
  | colorWrapper _ g _ => "var(--un-sdg-color-" ++ g ++ ")"
  | svgWrapper _ g _ _ _ => "var(--un-sdg-color-" ++ g ++ ")"

/-- The text of the `label` attribute: `"${this.getLabel()} color only"`; only the colour
block has one. -/
def labelAttr : TemplateResult → Option String
  | colorWrapper _ _ l => some (attrText l ++ " color only")
  | svgWrapper _ _ _ _ _ => none

/-- The text of the `src` attribute of the image. -/
def srcAttr : TemplateResult → Option String
  | colorWrapper _ _ _ => none
  | svgWrapper _ _ s _ _ => some s

/-- The value bound to the `alt` attribute of the image. -/
def altValue : TemplateResult → Option JSValue
  | colorWrapper _ _ _ => none
  | svgWrapper _ _ _ a _ => some a

/-- The Number bound to the `width` attribute of the image. -/
def imgWidthValue : TemplateResult → Option JSNumber
  | colorWrapper _ _ _ => none
  | svgWrapper _ _ _ _ w => some w

end TemplateResult

/-! ## The component -/

/-- The reactive properties of an `AafwanSdg` element. -/
structure AafwanSdg where
  goal : String
  label : JSValue
  width : JSNumber
  colorOnly : Bool

/-- The element right after `constructor()`: `goal = "circle"`, `width = 200`,
`colorOnly = false`; `label` is not assigned and stays `undefined`. -/
def AafwanSdg.constructor : AafwanSdg :=
  ⟨"circle", .undefined, JSNumber.ofNat 200, false⟩

/-- The array `SDGLabelList` of `getLabel()`. -/
def SDGLabelList : List String :=
  [ "No Poverty",
    "Zero Hunger",
    "Good Health and Well-being",
    "Quality Education",
    "Gender Equality",
    "Clean Water and Sanitation",
    "Affordable and Clean Energy",
    "Decent Work and Economic Growth",
    "Industry, Innovation, and Infrastructure",
    "Reduced Inequalities",
    "Sustainable Cities and Communities",
    "Responsible Consumption and Production",
    "Climate Action",
    "Life Below Water",
    "Life on Land",
    "Peace, Justice, and Strong Institutions",
    "Partnerships for the Goals" ]

/-- The method `getLabel()`. -/
def getLabel (this : AafwanSdg) : JSValue :=
  if !this.label.truthy then
    if Number.isInteger (Number this.goal) then
      arrayGet SDGLabelList (Number this.goal).subOne
    else if this.goal = "all" then
      .string "UN Sustainable Development Goals"
    else if this.goal = "circle" then
      .string "UN Sustainable Development Goals Logo"
    else
      .string ""
  else
    this.label

/-- The method `getImgSrc()`; `moduleURL` is `import.meta.url`. -/
def getImgSrc (moduleURL : BaseURL) (this : AafwanSdg) : String :=
  URL.href moduleURL ("../lib/svg/" ++ this.goal ++ ".svg")

/-- The method `render()`; `moduleURL` is `import.meta.url`. -/
def render (moduleURL : BaseURL) (this : AafwanSdg) : TemplateResult :=
  if this.colorOnly then
    .colorWrapper this.width this.goal (getLabel this)
  else
    .svgWrapper this.width this.goal (getImgSrc moduleURL this) (getLabel this) this.width

/-! ## Vocabulary of the statements -/

/-- The string `s` ends in `suffix`. -/
def endsIn (s suffix : String) : Prop := suffix.data <:+ s.data

/-- A character that the path state of the URL parser copies unchanged into the current
segment: outside the path percent-encode set (so no control, space, quotation mark,
`#`, `<`, `>`, `?`, `^`, grave accent, curly bracket or non-ASCII character) and
neither a slash nor a backslash. -/
def isPathLiteral (c : Char) : Bool :=
  !inPathSet c && !(c.toNat == 0x2F) && !(c.toNat == 0x5C)

/-- The decimal text of an integer: an optional minus sign and one or more decimal
digits. -/
def isDecimalIntegerText (s : String) : Bool :=
  match s.data with
  | '-' :: ds => !ds.isEmpty && ds.all Char.isDigit
  | ds => !ds.isEmpty && ds.all Char.isDigit

/-- A module URL used to evaluate the component on concrete inputs. -/
def exampleModuleURL : BaseURL := ⟨"https://example.org", ["pkg", "src", "un-sdg2.js"]⟩

/-! ## Lemmas -/

theorem bitLength_zero (fuel : Nat) : bitLength fuel 0 = 0 := by
  cases fuel <;> simp [bitLength]

/-- With `fuel ≥ n` the function `bitLength` does not run out of fuel: it returns the
number `b` of binary digits of `n`, that is `2^(b-1) ≤ n < 2^b`. -/
theorem bitLength_spec (fuel : Nat) :
    ∀ n : Nat, n ≤ fuel → 0 < n →
      2 ^ (bitLength fuel n - 1) ≤ n ∧ n < 2 ^ bitLength fuel n := by
  induction fuel with
  | zero => intro n h hn; omega
  | succ fuel ih =>
    intro n h hn
    have hn0 : n ≠ 0 := by omega
    rw [bitLength, if_neg hn0, Nat.add_sub_cancel]
    by_cases h2 : n / 2 = 0
    · rw [h2, bitLength_zero]
      have : n = 1 := by omega
      subst this
      simp
    · obtain ⟨ha, hb⟩ := ih (n / 2) (by omega) (by omega)
      have hpos : 0 < bitLength fuel (n / 2) := by
        rcases Nat.eq_zero_or_pos (bitLength fuel (n / 2)) with h0 | h0
        · rw [h0] at hb; simp at hb; omega
        · exact h0
      obtain ⟨k, hk⟩ : ∃ k, bitLength fuel (n / 2) = k + 1 := ⟨_, (Nat.succ_pred_eq_of_pos hpos).symm⟩
      rw [hk] at ha hb ⊢
      rw [Nat.add_sub_cancel] at ha
      rw [pow_succ] at hb ⊢
      rw [pow_succ]
      constructor <;> omega

theorem getLabel_congr (g : String) (l : JSValue) (w w1 : JSNumber) (c c1 : Bool) :
    getLabel ⟨g, l, w, c⟩ = getLabel ⟨g, l, w1, c1⟩ := rfl

theorem isPathLiteral_spec (c : Char) (h : isPathLiteral c = true) :
    inPathSet c = false ∧ c.toNat ≠ 0x2F ∧ c.toNat ≠ 0x5C := by
  simpa [isPathLiteral, and_assoc] using h

theorem pathState_literal (l : List Char) (hl : l.all isPathLiteral = true) :
    ∀ (path : List (List Char)) (buffer rest : List Char),
      pathState path buffer (l ++ rest) = pathState path (buffer ++ l) rest := by
  induction l with
  | nil => intro path buffer rest; simp
  | cons c l ih =>
    intro path buffer rest
    rw [List.all_cons, Bool.and_eq_true] at hl
    obtain ⟨h1, h2, h3⟩ := isPathLiteral_spec c hl.1
    have e1 : ¬ (c = '/' ∨ c.toNat = 0x5C) := by
      rintro (h | h)
      · subst h; exact h2 (by decide)
      · exact h3 h
    have e2 : ¬ c = '?' := by
      intro h; subst h; revert h1; decide
    have e3 : ¬ c = '#' := by
      intro h; subst h; revert h1; decide
    rw [List.cons_append, pathState, if_neg e1, if_neg e2, if_neg e3, ih hl.2]
    simp [utf8PercentEncode, h1]

theorem pathState_slash (path : List (List Char)) (buffer rest : List Char) :
    pathState path buffer ('/' :: rest) = pathState (commitSegment path buffer true) [] rest := by
  rw [pathState, if_pos (Or.inl rfl)]

/-- A segment that ends in `.svg` is not a dot segment. -/
theorem commitSegment_svg (path : List (List Char)) (g : List Char) :
    commitSegment path (g ++ ['.', 's', 'v', 'g']) false = path ++ [g ++ ['.', 's', 'v', 'g']] := by
  have key : ∀ t : List Char, t.reverse.head? ≠ some 'g' →
      (List.map Char.toLower (g ++ ['.', 's', 'v', 'g']) == t) = false := by
    intro t ht
    rw [beq_eq_false_iff_ne]
    intro h
    apply ht
    rw [← h]
    simp
  have h1 : isDoubleDot (g ++ ['.', 's', 'v', 'g']) = false := by
    simp only [isDoubleDot, Bool.or_eq_false_iff]
    exact ⟨⟨⟨key _ (by decide), key _ (by decide)⟩, key _ (by decide)⟩, key _ (by decide)⟩
  have h2 : isSingleDot (g ++ ['.', 's', 'v', 'g']) = false := by
    simp only [isSingleDot, Bool.or_eq_false_iff]
    exact ⟨key _ (by decide), key _ (by decide)⟩
  simp [commitSegment, h1, h2]

/-- The path state over `../lib/svg/<goal>.svg` for a goal of path-literal characters. -/
theorem pathState_asset (path : List (List Char)) (g : List Char)
    (hg : g.all isPathLiteral = true) :
    pathState path [] ("../lib/svg/".data ++ g ++ ".svg".data)
      = ⟨path.dropLast ++ ["lib".data, "svg".data, g ++ ".svg".data], none, none⟩ := by
  have hsvg : (g ++ ['.', 's', 'v', 'g']).all isPathLiteral = true := by
    rw [List.all_append, hg]; decide
  show pathState path [] ((['.', '.'] ++ '/' :: (['l', 'i', 'b'] ++ '/' :: (['s', 'v', 'g'] ++
      '/' :: [])) ++ g) ++ ['.', 's', 'v', 'g']) = _
  have e : ((['.', '.'] ++ '/' :: (['l', 'i', 'b'] ++ '/' :: (['s', 'v', 'g'] ++
      '/' :: [])) ++ g) ++ ['.', 's', 'v', 'g'])
      = ['.', '.'] ++ '/' :: (['l', 'i', 'b'] ++ '/' :: (['s', 'v', 'g'] ++
      '/' :: ((g ++ ['.', 's', 'v', 'g']) ++ []))) := by simp
  rw [e, pathState_literal _ (by decide), pathState_slash, pathState_literal _ (by decide),
    pathState_slash, pathState_literal _ (by decide), pathState_slash,
    pathState_literal _ hsvg, pathState]
  simp only [List.nil_append]
  rw [commitSegment_svg]
  have d1 : isDoubleDot ['.', '.'] = true := by decide
  have d2 : isDoubleDot ['l', 'i', 'b'] = false := by decide
  have d3 : isSingleDot ['l', 'i', 'b'] = false := by decide
  have d4 : isDoubleDot ['s', 'v', 'g'] = false := by decide
  have d5 : isSingleDot ['s', 'v', 'g'] = false := by decide
  simp [commitSegment, d1, d2, d3, d4, d5]

/-- The preprocessing of the URL parser leaves unchanged an input whose first and last
characters are no controls or spaces and that has no tab or newline. -/
theorem preprocessURL_eq (a z : Char) (mid : List Char)
    (ha : ¬ a.toNat ≤ 0x20) (hz : ¬ z.toNat ≤ 0x20)
    (hall : ∀ c ∈ a :: (mid ++ [z]),
      (!(c.toNat == 0x09 || c.toNat == 0x0A || c.toNat == 0x0D)) = true) :
    preprocessURL (a :: (mid ++ [z])) = a :: (mid ++ [z]) := by
  unfold preprocessURL
  simp only [List.dropWhile_cons, ha, decide_False, List.reverse_cons, List.reverse_append,
    List.reverse_nil, List.nil_append, List.singleton_append, List.cons_append, hz,
    Bool.false_eq_true, if_false, List.reverse_reverse]
  simpa [List.filter_eq_self] using hall

/-- The preprocessing of the URL parser leaves `../lib/svg/<goal>.svg` unchanged when the
goal has only path-literal characters. -/
theorem preprocessURL_asset (g : List Char) (hg : g.all isPathLiteral = true) :
    preprocessURL ("../lib/svg/".data ++ g ++ ".svg".data)
      = "../lib/svg/".data ++ g ++ ".svg".data := by
  have hfilter : ∀ c : Char, isPathLiteral c = true →
      (!(c.toNat == 0x09 || c.toNat == 0x0A || c.toNat == 0x0D)) = true := by
    intro c hc
    have h1 := (isPathLiteral_spec c hc).1
    simp only [inPathSet, inQuerySet, inC0ControlSet, Bool.or_eq_false_iff,
      decide_eq_false_iff_not] at h1
    have h2 := h1.1.1.1.1.1.1.1.1.1.1
    simp
    omega
  have e : "../lib/svg/".data ++ g ++ ".svg".data
      = '.' :: ((['.', '/', 'l', 'i', 'b', '/', 's', 'v', 'g', '/'] ++ g ++ ['.', 's', 'v'])
        ++ ['g']) := by
    show (['.', '.', '/', 'l', 'i', 'b', '/', 's', 'v', 'g', '/'] ++ g) ++ ['.', 's', 'v', 'g'] = _
    simp
  have hlit : ∀ c ∈ ['.', '/', 'l', 'i', 'b', 's', 'v', 'g'],
      (!(c.toNat == 0x09 || c.toNat == 0x0A || c.toNat == 0x0D)) = true := by decide
  rw [e]
  apply preprocessURL_eq _ _ _ (by decide) (by decide)
  intro c hc
  rw [List.all_eq_true] at hg
  have hc1 : c ∈ g ∨ c ∈ ['.', '/', 'l', 'i', 'b', 's', 'v', 'g'] := by
    simp only [List.mem_cons, List.mem_append, List.mem_singleton, List.not_mem_nil,
      or_false] at hc ⊢
    tauto
  rcases hc1 with h | h
  · exact hfilter c (hg c h)
  · exact hlit c h

/-- The `href` of `../lib/svg/<goal>.svg` for a goal of path-literal characters: the
directory of the module, one level up, then `/lib/svg/<goal>.svg`. -/
theorem getImgSrc_literal (moduleURL : BaseURL) (this : AafwanSdg)
    (hg : this.goal.data.all isPathLiteral = true) :
    (getImgSrc moduleURL this).data
      = moduleURL.origin.data
        ++ ((moduleURL.path.map String.data).dropLast.dropLast).flatMap (fun seg => '/' :: seg)
        ++ "/lib/svg/".data ++ (this.goal.data ++ ".svg".data) := by
  simp only [getImgSrc, URL.href, String.data_append]
  rw [preprocessURL_asset _ hg, pathState_asset _ _ hg]
  simp [serializeURL, List.flatMap_append]

theorem getImgSrc_endsIn (moduleURL : BaseURL) (this : AafwanSdg)
    (hg : this.goal.data.all isPathLiteral = true) :
    endsIn (getImgSrc moduleURL this) (this.goal ++ ".svg") := by
  unfold endsIn
  rw [getImgSrc_literal moduleURL this hg, String.data_append]
  exact List.suffix_append _ _

/-! ## The claims -/

/-- C1: a non-empty override label takes precedence: whatever the goal identifier (valid,
out of range or meaningless), `getLabel` returns the label `L` itself. -/
theorem C1_override_precedence (goal L : String) (width : JSNumber) (colorOnly : Bool)
    (hL : L ≠ "") : getLabel ⟨goal, .string L, width, colorOnly⟩ = .string L := by
  simp [getLabel, JSValue.truthy, hL]

theorem C1_override_precedence_witness :
    "My Custom Label" ≠ "" ∧
      getLabel ⟨"anything", .string "My Custom Label", JSNumber.ofNat 200, false⟩
        = .string "My Custom Label" ∧
      getLabel ⟨"18", .string "My Custom Label", JSNumber.ofNat 200, true⟩
        = .string "My Custom Label" :=
  ⟨by decide, C1_override_precedence _ _ _ _ (by decide),
    C1_override_precedence _ _ _ _ (by decide)⟩

/-- C2: for every integer `i` with `1 ≤ i ≤ 17`, `getLabel` with `goal` the decimal string
of `i` and an empty (or unset) override label returns entry `i - 1` of `SDGLabelList`, the
`i`-th title; `"1"` gives "No Poverty" and `"17"` gives "Partnerships for the Goals". -/
theorem C2_in_range_lookup (i : Int) (h1 : 1 ≤ i) (h17 : i ≤ 17) (width : JSNumber)
    (colorOnly : Bool) :
    some (getLabel ⟨toString i, .string "", width, colorOnly⟩)
        = (SDGLabelList.get? (i - 1).toNat).map JSValue.string ∧
      some (getLabel ⟨toString i, .undefined, width, colorOnly⟩)
        = (SDGLabelList.get? (i - 1).toNat).map JSValue.string ∧
      getLabel ⟨"1", .string "", width, colorOnly⟩ = .string "No Poverty" ∧
      getLabel ⟨"17", .string "", width, colorOnly⟩ = .string "Partnerships for the Goals" := by
  rw [getLabel_congr _ _ width .nan colorOnly false,
    getLabel_congr _ (.undefined) width .nan colorOnly false,
    getLabel_congr "1" _ width .nan colorOnly false,
    getLabel_congr "17" _ width .nan colorOnly false]
  interval_cases i <;> decide

theorem C2_in_range_lookup_witness :
    (1 : Int) ≤ 8 ∧ (8 : Int) ≤ 17 ∧
      some (getLabel ⟨toString (8 : Int), .string "", JSNumber.ofNat 200, false⟩)
        = some (.string "Decent Work and Economic Growth") :=
  ⟨by decide, by decide,
    (C2_in_range_lookup 8 (by decide) (by decide) (JSNumber.ofNat 200) false).1⟩

/-- C3: on the out-of-range integers `0`, `18` and `-1` with an empty (or unset) override
label, `getLabel` returns `undefined`, the out-of-bounds array access, and not the empty
string of the fallback branch. -/
theorem C3_out_of_range_is_undefined :
    getLabel ⟨"0", .string "", JSNumber.ofNat 200, false⟩ = .undefined ∧
      getLabel ⟨"18", .string "", JSNumber.ofNat 200, false⟩ = .undefined ∧
      getLabel ⟨"-1", .string "", JSNumber.ofNat 200, false⟩ = .undefined ∧
      getLabel ⟨"0", .undefined, JSNumber.ofNat 200, false⟩ = .undefined ∧
      getLabel ⟨"foo", .string "", JSNumber.ofNat 200, false⟩ = .string "" := by
  decide

/-- C4 as stated fails: the empty string and `0x7` are not the decimal text of an integer
and are neither `all` nor `circle`, yet `getLabel` returns `undefined` for the first and
the title of goal 7 for the second, not the empty string. -/
theorem C4_counterexample :
    (isDecimalIntegerText "" = false ∧ "" ≠ "all" ∧ "" ≠ "circle" ∧
      getLabel ⟨"", .string "", JSNumber.ofNat 200, false⟩ = .undefined) ∧
    (isDecimalIntegerText "0x7" = false ∧ "0x7" ≠ "all" ∧ "0x7" ≠ "circle" ∧
      getLabel ⟨"0x7", .string "", JSNumber.ofNat 200, false⟩
        = .string "Affordable and Clean Energy") := by
  decide

/-- C4, amended: for every goal identifier whose numeric conversion `Number(goal)` is not
an integer and that is neither `all` nor `circle`, `getLabel` with an empty or unset
override label returns the empty string. -/
theorem C4_non_integer_goal_empty_label (goal : String) (label : JSValue) (width : JSNumber)
    (colorOnly : Bool) (hlabel : label.truthy = false)
    (hnum : Number.isInteger (Number goal) = false)
    (hall : goal ≠ "all") (hcircle : goal ≠ "circle") :
    getLabel ⟨goal, label, width, colorOnly⟩ = .string "" := by
  simp [getLabel, hlabel, hnum, hall, hcircle]

theorem C4_non_integer_goal_empty_label_witness :
    getLabel ⟨"foo", .string "", JSNumber.ofNat 200, false⟩ = .string "" ∧
      getLabel ⟨"ALL", .undefined, JSNumber.ofNat 200, false⟩ = .string "" ∧
      getLabel ⟨"7.5", .string "", JSNumber.ofNat 200, false⟩ = .string "" :=
  ⟨C4_non_integer_goal_empty_label "foo" (.string "") _ _ (by decide) (by decide) (by decide)
      (by decide),
    C4_non_integer_goal_empty_label "ALL" .undefined _ _ (by decide) (by decide) (by decide)
      (by decide),
    C4_non_integer_goal_empty_label "7.5" (.string "") _ _ (by decide) (by decide) (by decide)
      (by decide)⟩

/-- C5: with an empty (or unset) override label, `getLabel` returns
"UN Sustainable Development Goals" for the goal `all` and
"UN Sustainable Development Goals Logo" for the goal `circle`. -/
theorem C5_fixed_literals (width : JSNumber) (colorOnly : Bool) :
    getLabel ⟨"all", .string "", width, colorOnly⟩
        = .string "UN Sustainable Development Goals" ∧
      getLabel ⟨"circle", .string "", width, colorOnly⟩
        = .string "UN Sustainable Development Goals Logo" ∧
      getLabel ⟨"all", .undefined, width, colorOnly⟩
        = .string "UN Sustainable Development Goals" ∧
      getLabel ⟨"circle", .undefined, width, colorOnly⟩
        = .string "UN Sustainable Development Goals Logo" := by
  rw [getLabel_congr "all" _ width .nan colorOnly false,
    getLabel_congr "circle" _ width .nan colorOnly false,
    getLabel_congr "all" .undefined width .nan colorOnly false,
    getLabel_congr "circle" .undefined width .nan colorOnly false]
  decide

/-- C6: when `colorOnly` is true, for every goal `g`, width `w` and override label,
`render` produces the colour block and no image; its width is `w`, its colour is the
token `--un-sdg-color-<g>` and its `label` attribute is the text of `getLabel()` followed
by " color only".  For `g = "7"`, `w = 300` the label is
"Affordable and Clean Energy color only" and the token is `--un-sdg-color-7`. -/
theorem C6_color_only_branch (moduleURL : BaseURL) (g : String) (label : JSValue)
    (w : JSNumber) :
    (render moduleURL ⟨g, label, w, true⟩).isColorBlock = true ∧
      (render moduleURL ⟨g, label, w, true⟩).hasImage = false ∧
      (render moduleURL ⟨g, label, w, true⟩).srcAttr = none ∧
      (render moduleURL ⟨g, label, w, true⟩).styleWidth = w ∧
      (render moduleURL ⟨g, label, w, true⟩).goalColor = "var(--un-sdg-color-" ++ g ++ ")" ∧
      (render moduleURL ⟨g, label, w, true⟩).labelAttr
        = some (attrText (getLabel ⟨g, label, w, true⟩) ++ " color only") ∧
      render moduleURL ⟨"7", .string "", JSNumber.ofNat 300, true⟩
        = .colorWrapper (JSNumber.ofNat 300) "7" (.string "Affordable and Clean Energy") ∧
      (render moduleURL ⟨"7", .string "", JSNumber.ofNat 300, true⟩).labelAttr
        = some "Affordable and Clean Energy color only" ∧
      endsIn "Affordable and Clean Energy color only" "color only" ∧
      (render moduleURL ⟨"7", .string "", JSNumber.ofNat 300, true⟩).goalColor
        = "var(--un-sdg-color-7)" := by
  have h7 : getLabel ⟨"7", .string "", JSNumber.ofNat 300, true⟩
      = .string "Affordable and Clean Energy" := by decide
  refine ⟨rfl, rfl, rfl, rfl, rfl, rfl, ?_, ?_, ?_, ?_⟩
  · simp [render, h7]
  · simp only [render, if_true, TemplateResult.labelAttr, h7, attrText]
    decide
  · exact ⟨"Affordable and Clean Energy ".data, by decide⟩
  · simp only [render, if_true, TemplateResult.goalColor]
    decide

/-- C7 as stated fails: for the goal `a b` the parser percent-encodes the space, and the
`src` of the image ends in `a%20b.svg`, not in `a b.svg`. -/
theorem C7_counterexample :
    (render exampleModuleURL ⟨"a b", .string "", JSNumber.ofNat 200, false⟩).srcAttr
        = some "https://example.org/pkg/lib/svg/a%20b.svg" ∧
      ¬ endsIn "https://example.org/pkg/lib/svg/a%20b.svg" ("a b" ++ ".svg") := by
  refine ⟨by decide, ?_⟩
  intro h
  have h2 : "0b.svg".data <:+ "https://example.org/pkg/lib/svg/a%20b.svg".data :=
    ⟨"https://example.org/pkg/lib/svg/a%2".data, by decide⟩
  have h3 := List.suffix_of_suffix_length_le h2 h (by decide)
  revert h3
  decide

/-- C7, amended: when `colorOnly` is false, for every goal `g`, width `w` and override
label, `render` produces the image and no colour block; its `src` is the `href` of
`../lib/svg/<g>.svg` resolved against the module URL, the widths are `w` and the `alt`
value is exactly the result of `getLabel()`.  The `src` ends in `<g>.svg` whenever `g`
has only characters that the URL parser copies unchanged into a path segment. -/
theorem C7_image_branch (moduleURL : BaseURL) (g : String) (label : JSValue) (w : JSNumber) :
    (render moduleURL ⟨g, label, w, false⟩).hasImage = true ∧
      (render moduleURL ⟨g, label, w, false⟩).isColorBlock = false ∧
      (render moduleURL ⟨g, label, w, false⟩).labelAttr = none ∧
      (render moduleURL ⟨g, label, w, false⟩).srcAttr
        = some (URL.href moduleURL ("../lib/svg/" ++ g ++ ".svg")) ∧
      (render moduleURL ⟨g, label, w, false⟩).styleWidth = w ∧
      (render moduleURL ⟨g, label, w, false⟩).imgWidthValue = some w ∧
      (render moduleURL ⟨g, label, w, false⟩).altValue
        = some (getLabel ⟨g, label, w, false⟩) ∧
      (g.data.all isPathLiteral = true →
        endsIn (URL.href moduleURL ("../lib/svg/" ++ g ++ ".svg")) (g ++ ".svg")) :=
  ⟨rfl, rfl, rfl, rfl, rfl, rfl, rfl,
    fun hg => getImgSrc_endsIn moduleURL ⟨g, label, w, false⟩ hg⟩

theorem C7_image_branch_witness :
    "circle".data.all isPathLiteral = true ∧
      (render exampleModuleURL ⟨"circle", .undefined, JSNumber.ofNat 200, false⟩).srcAttr
        = some (URL.href exampleModuleURL ("../lib/svg/" ++ "circle" ++ ".svg")) ∧
      endsIn (URL.href exampleModuleURL ("../lib/svg/" ++ "circle" ++ ".svg"))
        ("circle" ++ ".svg") :=
  ⟨by decide,
    (C7_image_branch exampleModuleURL "circle" .undefined (JSNumber.ofNat 200)).2.2.2.1,
    (C7_image_branch exampleModuleURL "circle" .undefined (JSNumber.ofNat 200)).2.2.2.2.2.2.2
      (by decide)⟩

/-- C8 as stated fails: for `goal = "7"` the `alt` value is "Affordable and Clean Energy",
entry 6 of `SDGLabelList`; "Decent Work and Economic Growth" is the title of goal 8. -/
theorem C8_counterexample :
    (render exampleModuleURL ⟨"7", .string "", JSNumber.ofNat 300, false⟩).altValue
        = some (.string "Affordable and Clean Energy") ∧
      (render exampleModuleURL ⟨"7", .string "", JSNumber.ofNat 300, false⟩).altValue
        ≠ some (.string "Decent Work and Economic Growth") ∧
      getLabel ⟨"8", .string "", JSNumber.ofNat 300, false⟩
        = .string "Decent Work and Economic Growth" := by
  decide

/-- C8, amended: rendering with `goal = "7"`, `colorOnly = false`, `width = 300` and an
empty override label yields the image whose `src` ends in `7.svg`, whose width is 300 and
whose `alt` value is "Affordable and Clean Energy". -/
theorem C8_concrete_image (moduleURL : BaseURL) :
    render moduleURL ⟨"7", .string "", JSNumber.ofNat 300, false⟩
        = .svgWrapper (JSNumber.ofNat 300) "7"
            (URL.href moduleURL ("../lib/svg/" ++ "7" ++ ".svg"))
            (.string "Affordable and Clean Energy") (JSNumber.ofNat 300) ∧
      endsIn (URL.href moduleURL ("../lib/svg/" ++ "7" ++ ".svg")) "7.svg" := by
  have h7 : getLabel ⟨"7", .string "", JSNumber.ofNat 300, false⟩
      = .string "Affordable and Clean Energy" := by decide
  refine ⟨?_, ?_⟩
  · simp [render, h7, getImgSrc]
  · exact getImgSrc_endsIn moduleURL ⟨"7", .string "", JSNumber.ofNat 300, false⟩ (by decide)

/-- C9: the element as the constructor leaves it (goal `circle`, width 200,
`colorOnly = false`, label unset) renders exactly what `goal = "circle"`,
`colorOnly = false`, `width = 200`, `label = ""` renders: the image whose `src` ends in
`circle.svg`, whose width is 200 and whose `alt` value is the string
"UN Sustainable Development Goals Logo". -/
theorem C9_defaults (moduleURL : BaseURL) :
    render moduleURL AafwanSdg.constructor
        = render moduleURL ⟨"circle", .string "", JSNumber.ofNat 200, false⟩ ∧
      render moduleURL AafwanSdg.constructor
        = .svgWrapper (JSNumber.ofNat 200) "circle"
            (URL.href moduleURL ("../lib/svg/" ++ "circle" ++ ".svg"))
            (.string "UN Sustainable Development Goals Logo") (JSNumber.ofNat 200) ∧
      endsIn (URL.href moduleURL ("../lib/svg/" ++ "circle" ++ ".svg")) "circle.svg" := by
  have h1 : getLabel ⟨"circle", .undefined, JSNumber.ofNat 200, false⟩
      = .string "UN Sustainable Development Goals Logo" := by decide
  have h2 : getLabel ⟨"circle", .string "", JSNumber.ofNat 200, false⟩
      = .string "UN Sustainable Development Goals Logo" := by decide
  refine ⟨?_, ?_, ?_⟩
  · simp [render, h1, h2, getImgSrc, AafwanSdg.constructor]
  · simp [render, h1, getImgSrc, AafwanSdg.constructor]
  · exact getImgSrc_endsIn moduleURL ⟨"circle", .string "", JSNumber.ofNat 200, false⟩
      (by decide)

/-- C10: the label depends only on the numeric value of the goal string, the asset path and
the colour token on its text.  For every goal `g` whose numeric conversion `Number(g)` is
the integer `n` with `1 ≤ n ≤ 17`, `getLabel` with an empty or unset override label returns
the same title as for the decimal string of `n`, entry `n - 1` of `SDGLabelList`, while
`getImgSrc` resolves `../lib/svg/<g>.svg` and the colour token is `--un-sdg-color-<g>`,
both built from the text of `g`. -/
theorem C10_label_by_value_assets_by_text (moduleURL : BaseURL) (g : String) (n : Nat)
    (label : JSValue) (w : JSNumber) (colorOnly : Bool)
    (h1 : 1 ≤ n) (h17 : n ≤ 17) (hnum : Number g = JSNumber.ofNat n)
    (hlabel : label.truthy = false) :
    getLabel ⟨g, label, w, colorOnly⟩ = getLabel ⟨toString n, label, w, colorOnly⟩ ∧
      some (getLabel ⟨g, label, w, colorOnly⟩)
        = (SDGLabelList.get? (n - 1)).map JSValue.string ∧
      getImgSrc moduleURL ⟨g, label, w, colorOnly⟩
        = URL.href moduleURL ("../lib/svg/" ++ g ++ ".svg") ∧
      (render moduleURL ⟨g, label, w, colorOnly⟩).goalColor
        = "var(--un-sdg-color-" ++ g ++ ")" := by
  have hcanon : Number (toString n) = JSNumber.ofNat n := by
    interval_cases n <;> decide
  have hint : Number.isInteger (JSNumber.ofNat n) = true := by
    interval_cases n <;> decide
  have hval : some (arrayGet SDGLabelList (JSNumber.ofNat n).subOne)
      = (SDGLabelList.get? (n - 1)).map JSValue.string := by
    interval_cases n <;> decide
  refine ⟨?_, ?_, rfl, ?_⟩
  · simp [getLabel, hlabel, hnum, hcanon, hint]
  · simp only [getLabel, hlabel, hnum, hint, Bool.not_false, if_true]
    exact hval
  · cases colorOnly <;> rfl

theorem C10_label_by_value_assets_by_text_witness :
    (Number "07" = JSNumber.ofNat 7 ∧ Number " 7 " = JSNumber.ofNat 7 ∧
      Number "7.0" = JSNumber.ofNat 7 ∧ Number "0x7" = JSNumber.ofNat 7) ∧
    (getLabel ⟨"07", .string "", JSNumber.ofNat 200, false⟩
        = getLabel ⟨toString 7, .string "", JSNumber.ofNat 200, false⟩ ∧
      some (getLabel ⟨"07", .string "", JSNumber.ofNat 200, false⟩)
        = some (.string "Affordable and Clean Energy") ∧
      getImgSrc exampleModuleURL ⟨"07", .string "", JSNumber.ofNat 200, false⟩
        = URL.href exampleModuleURL ("../lib/svg/" ++ "07" ++ ".svg") ∧
      (render exampleModuleURL ⟨"07", .string "", JSNumber.ofNat 200, false⟩).goalColor
        = "var(--un-sdg-color-" ++ "07" ++ ")") ∧
    getImgSrc exampleModuleURL ⟨"07", .string "", JSNumber.ofNat 200, false⟩
      = "https://example.org/pkg/lib/svg/07.svg" ∧
    getImgSrc exampleModuleURL ⟨"7", .string "", JSNumber.ofNat 200, false⟩
      = "https://example.org/pkg/lib/svg/7.svg" :=
  ⟨by decide,
    C10_label_by_value_assets_by_text exampleModuleURL "07" 7 (.string "") (JSNumber.ofNat 200)
      false (by decide) (by decide) (by decide) (by decide),
    by decide, by decide⟩

end UnSdg
